import Mathlib

/-!
Verification development for the clinical-trials matching application
(`deepscribe-takehome-final`).

The repository is a Next.js frontend together with documentation of a Flask
backend.  The frontend sources (`app/page.tsx`, `components/trials/*`, the
shared TypeScript interfaces) are embedded directly.  The Python backend
services (`api/services/llm_router.py`, `langchain_rag_service.py`,
`trials_client.py`, `llm_eligibility_filter.py`, `patient_extractor.py`) are
not part of the checked-in sources; every definition that stands in for one
of them is marked `Modelled from the spec:` and follows the design document
word for word.

Numeric scores are modelled as rationals (`ℚ`); machine floating point is not
load-bearing for any of the properties below, which are about exact
combination formulas, thresholds and orderings.
-/

namespace ClinicalTrials

/-! ## Data model (TypeScript interfaces, `src/unnamed/part_002`) -/

/-- Gender enumeration of the `PatientData` TypeScript interface. -/
inductive Gender where
  | MALE
  | FEMALE
  | OTHER
deriving DecidableEq, Repr

/-- Patient location, from the `PatientData.location` TypeScript interface. -/
structure LocationInfo where
  city : Option String := none
  state : Option String := none
  zip_code : Option String := none
  latitude : Option ℚ := none
  longitude : Option ℚ := none
deriving DecidableEq, Repr

/-- Structured patient record, from the `PatientData` TypeScript interface in
`src/unnamed/part_002`.  `tumor_markers` (a `Record<string, any>`) is modelled
as an association list of strings. -/
structure PatientData where
  age : Option ℕ := none
  gender : Option Gender := none
  primary_diagnosis : Option String := none
  cancer_stage : Option String := none
  conditions : Option (List String) := none
  medications : Option (List String) := none
  allergies : Option (List String) := none
  comorbidities : Option (List String) := none
  previous_treatments : Option (List String) := none
  tumor_markers : Option (List (String × String)) := none
  tumor_size : Option String := none
  menopausal_status : Option String := none
  willing_to_travel : Option Bool := none
  preferred_distance : Option ℕ := none
  location : Option LocationInfo := none
deriving DecidableEq, Repr

/-- Per-field confidence scores, from the `ConfidenceScores` TypeScript
interface in `src/unnamed/part_002`. -/
structure ConfidenceScores where
  overall : Option ℚ := none
  age : Option ℚ := none
  gender : Option ℚ := none
  primary_diagnosis : Option ℚ := none
  conditions : Option ℚ := none
  medications : Option ℚ := none
  location : Option ℚ := none
deriving DecidableEq, Repr

/-- Result of the `/api/extract` endpoint, from the `ExtractionResult`
TypeScript interface in `src/unnamed/part_002`. -/
structure ExtractionResult where
  success : Bool
  patient_data : Option PatientData := none
  confidence_scores : Option ConfidenceScores := none
  provider_used : Option String := none
  extraction_time_ms : Option ℕ := none
  error_message : Option String := none
deriving DecidableEq, Repr

/-! ## Saved-trials toggle (`components/trials/TrialsList.tsx`, `handleSaveTrial`) -/

/-- Embedding of `handleSaveTrial` in `TrialsList.tsx`: the updater copies the
previous saved set, deletes the id if present and adds it otherwise.  The
`Set<string>` of the source is modelled as a `Finset String`. -/
def handleSaveTrial (trialId : String) (prev : Finset String) : Finset String :=
  if trialId ∈ prev then prev.erase trialId else insert trialId prev

/-! ## Trial Q&A dialog (`src/unnamed/part_000`, `TrialQADialog.handleSendMessage`) -/

/-- Message author tag, from the `Message` interface of `TrialQADialog`. -/
inductive MessageType where
  | user
  | assistant
deriving DecidableEq, Repr

/-- Chat message of the Q&A dialog.  The `id` and `timestamp` fields of the
source are derived from the wall clock (`Date.now()`); they carry no logical
content and are not modelled. -/
structure Message where
  mtype : MessageType
  content : String
  sources : List String := []
deriving DecidableEq, Repr

/-- The component state touched by `handleSendMessage`: the message list, the
input field and the in-flight flag. -/
structure ChatState where
  messages : List Message
  inputValue : String
  isLoading : Bool
deriving DecidableEq, Repr

/-- Outcome of the `/api/trials/qa` call made by `handleSendMessage`:
the backend answered with `success: true` (carrying `answer` and `sources`),
answered with `success: false` (the response may still carry `sources`), or
the fetch / JSON parsing threw. -/
inductive QAOutcome where
  | success (answer : String) (sources : List String)
  | apiFailure (sources : List String)
  | fetchError
deriving DecidableEq, Repr

/-- Fixed apology text used by `handleSendMessage` for both failure paths. -/
def apologyText : String :=
  "I apologize, but I encountered an error while processing your question. Please try again."

/-- JavaScript's `String.prototype.trim`: strip leading and trailing
whitespace. -/
def jsTrim (s : String) : String :=
  ⟨((s.data.dropWhile Char.isWhitespace).reverse.dropWhile Char.isWhitespace).reverse⟩

/-- Embedding of `handleSendMessage` in `TrialQADialog.tsx`, run to
completion on a given call outcome.  The guard `!inputValue.trim() ||
isLoading` returns with the state untouched; otherwise one user message
(with the untrimmed input) and one assistant message are appended, the input
is cleared, and the loading flag ends `false` (the `finally` block). -/
def handleSendMessage (st : ChatState) (outcome : QAOutcome) : ChatState :=
  if jsTrim st.inputValue = "" ∨ st.isLoading then st
  else
    let userMsg : Message := { mtype := .user, content := st.inputValue, sources := [] }
    let assistantMsg : Message :=
      match outcome with
      | .success answer sources => { mtype := .assistant, content := answer, sources := sources }
      | .apiFailure sources => { mtype := .assistant, content := apologyText, sources := sources }
      | .fetchError => { mtype := .assistant, content := apologyText, sources := [] }
    { messages := st.messages ++ [userMsg, assistantMsg]
      inputValue := ""
      isLoading := false }

/-! ## Top-level page state machine (`app/page.tsx`) -/

/-- The `currentStep` state of `Home` in `app/page.tsx`. -/
inductive UIStep where
  | input
  | processing
  | review
  | results
deriving DecidableEq, Repr

/-- The `Home` component state touched by `handleTranscriptSubmit`. -/
structure HomeState where
  currentStep : UIStep
  transcript : String
  extractedData : Option ExtractionResult
  processing : Bool
deriving DecidableEq, Repr

/-- Embedding of `handleTranscriptSubmit` in `app/page.tsx`, run to
completion.  `outcome = some r` models a parsed `/api/extract` response
(whatever its `success` flag); `none` models the fetch or JSON parsing
throwing.  In both branches of the source's `if (extractResult.success)` the
result is stored and the step becomes `review`; on a thrown error the step
returns to `input`; the `finally` block clears `processing`. -/
def handleTranscriptSubmit (st : HomeState) (transcriptText : String)
    (outcome : Option ExtractionResult) : HomeState :=
  match outcome with
  | some r =>
      { st with
        transcript := transcriptText
        extractedData := some r
        currentStep := .review
        processing := false }
  | none =>
      { st with
        transcript := transcriptText
        currentStep := .input
        processing := false }

/-- Modelled from the spec: `extract` on total Router failure
(`patient_extractor.py` is not in src).  Per §4.3, when both provider
attempts fail the service returns a partial record (whatever fields could be
salvaged) with an explicit `success = false` flag and an error message,
rather than raising a pipeline-fatal error. -/
def extractOnRouterFailure (errMsg : String) (salvaged : Option PatientData) :
    ExtractionResult :=
  { success := false
    patient_data := salvaged
    confidence_scores := none
    provider_used := none
    extraction_time_ms := none
    error_message := some errMsg }

/-! ## Trial registry data model

Modelled from the spec (§3): the backend trial models (`api/models/trial_data.py`)
are not in src; the field selection follows the spec's `Trial` entry and the
`Trial` TypeScript interface of `src/unnamed/part_002`. -/

/-- Trial status enumeration.  The spec's registry query keeps the three
active statuses; `COMPLETED` stands for any other registry status. -/
inductive TrialStatus where
  | RECRUITING
  | NOT_YET_RECRUITING
  | ACTIVE_NOT_RECRUITING
  | COMPLETED
deriving DecidableEq, Repr

/-- Trial site record: city/state plus optional coordinates (spec §3). -/
structure TrialSite where
  city : String := ""
  state : String := ""
  coords : Option (ℚ × ℚ) := none
deriving DecidableEq, Repr

/-- Eligibility bounds of a trial (spec §3): optional hard age bounds. -/
structure TrialEligibility where
  age_min : Option ℕ := none
  age_max : Option ℕ := none
deriving DecidableEq, Repr

/-- Trial entity normalized from a registry response (spec §3). -/
structure Trial where
  nct_id : String
  title : String := ""
  status : TrialStatus := .RECRUITING
  brief_summary : String := ""
  eligibility : TrialEligibility := {}
  locations : List TrialSite := []
  enrollment_target : Option ℕ := none
deriving DecidableEq, Repr

/-- LLM eligibility judgment for one trial (spec §3): an
`eligibility_score ∈ [0,1]`, a `hard_exclude` flag and a reasoning string. -/
structure EligibilityJudgment where
  eligibility_score : ℚ
  hard_exclude : Bool
  reasoning : String := ""
deriving DecidableEq, Repr

/-- Match factors reported to the caller (spec §4.6). -/
structure MatchFactors where
  condition_match : ℚ
  eligibility_fit : ℚ
  enrollment_status : ℚ
  geographic_proximity : ℚ
deriving DecidableEq, Repr

/-- Ranked trial: trial + combined match score + factors + reasoning
(spec §3). -/
structure RankedTrial where
  trial : Trial
  match_score : ℚ
  match_factors : MatchFactors
  reasoning : String := ""
deriving DecidableEq, Repr

/-! ## Eligibility & Ranking Engine

Modelled from the spec (§4.6): `llm_eligibility_filter.py` is not in src.
The LLM judgments themselves are an input (a judgment map keyed by NCT id,
exactly the `(PatientRecord, Trial[], judgment-map)` input of §8); batching
and bounded concurrency only affect how the judgment map is produced, never
the deterministic scoring below. -/

/-- Judgment map: the per-trial LLM eligibility judgments, keyed by NCT id.
A trial absent from the map models a batch that failed Router-level. -/
def JudgmentMap : Type := String → Option EligibilityJudgment

/-- Modelled from the spec: a batch that fails Router-level yields "no
judgment" for its trials, which get `eligibility_score = 0.5` (neutral) and
`hard_exclude = false` (§4.6, Judged). -/
def neutralJudgment : EligibilityJudgment :=
  { eligibility_score := 1/2, hard_exclude := false, reasoning := "no judgment" }

/-- Modelled from the spec: the engine's own unambiguous hard-exclusion
check on age bounds ("age outside hard bounds", §4.6; scenario §8: a
17-year-old against `age_min = 18` is hard-excluded). -/
def ageExcluded (p : PatientData) (t : Trial) : Bool :=
  match p.age with
  | none => false
  | some a =>
      (match t.eligibility.age_min with
       | some m => a < m
       | none => false) ||
      (match t.eligibility.age_max with
       | some m => m < a
       | none => false)

/-- Modelled from the spec: the judgment the engine uses for a trial — the
LLM judgment (or the neutral judgment when the batch failed), with the
`hard_exclude` flag forced by the engine's own age-bound check ("driven by
unambiguous exclusions such as age outside hard bounds", §4.6). -/
def judge (p : PatientData) (jmap : JudgmentMap) (t : Trial) : EligibilityJudgment :=
  let base := (jmap t.nct_id).getD neutralJudgment
  { base with hard_exclude := base.hard_exclude || ageExcluded p t }

/-- Patient coordinates when the geocoding step resolved them (spec §4.5). -/
def patientCoords (p : PatientData) : Option (ℚ × ℚ) :=
  p.location.bind fun loc =>
    match loc.latitude, loc.longitude with
    | some la, some lo => some (la, lo)
    | _, _ => none

/-- Site coordinates of a trial that are actually present. -/
def siteCoords (t : Trial) : List (ℚ × ℚ) :=
  t.locations.filterMap (·.coords)

/-- Modelled from the spec: monotonic decay of a distance into `[0,1]`
(closer = higher, §4.6 Scored).  The spec fixes only monotonicity and the
range, not the exact shape. -/
def distanceDecay (d : ℚ) : ℚ := 1 / (1 + max d 0)

/-- Modelled from the spec: deterministic geographic score (§4.6, Scored) —
the distance between the patient and the nearest trial site mapped through a
monotonic decay into `[0,1]`; missing coordinates on either side give the
neutral `0.5`.  The great-circle distance computation is abstracted as the
parameter `dist`. -/
def geographicScore (dist : ℚ × ℚ → ℚ × ℚ → ℚ) (p : PatientData) (t : Trial) : ℚ :=
  match patientCoords p with
  | none => 1/2
  | some pc =>
      match (siteCoords t).map (dist pc) with
      | [] => 1/2
      | d :: ds => distanceDecay (ds.foldl min d)

/-- Modelled from the spec: the fixed enrollment-status factor (§4.6):
`RECRUITING → 1.0`, `ACTIVE_NOT_RECRUITING → 0.7`, `NOT_YET_RECRUITING → 0.5`.
The spec maps no other status; such trials never pass the registry status
filter, so the value `0` below is never observable. -/
def enrollmentStatusScore : TrialStatus → ℚ
  | .RECRUITING => 1
  | .ACTIVE_NOT_RECRUITING => 7/10
  | .NOT_YET_RECRUITING => 1/2
  | .COMPLETED => 0

/-- Modelled from the spec: the Scored step (§4.6) — combined score
`eligibility_score × 0.7 + geographic_score × 0.3`, with the reported match
factors: `condition_match` is the LLM score as reported, `eligibility_fit`
the score adjusted by the hard-exclusion checks, `enrollment_status` the
fixed status mapping, `geographic_proximity` the computed geographic
score. -/
def scoreTrial (dist : ℚ × ℚ → ℚ × ℚ → ℚ) (p : PatientData) (jmap : JudgmentMap)
    (t : Trial) : RankedTrial :=
  let j := judge p jmap t
  let geo := geographicScore dist p t
  { trial := t
    match_score := j.eligibility_score * (7/10) + geo * (3/10)
    match_factors :=
      { condition_match := j.eligibility_score
        eligibility_fit := if j.hard_exclude then 0 else j.eligibility_score
        enrollment_status := enrollmentStatusScore t.status
        geographic_proximity := geo }
    reasoning := j.reasoning }

/-- Modelled from the spec: the fixed acceptance threshold of the Filtered
step (§4.6), "e.g., 0.35". -/
def acceptanceThreshold : ℚ := 35/100

/-- Lexicographic strict order on character lists, used for the
ascending-NCT-id tie-break. -/
def charListLt : List Char → List Char → Bool
  | [], [] => false
  | [], _ :: _ => true
  | _ :: _, [] => false
  | c :: cs, d :: ds => if c < d then true else if d < c then false else charListLt cs ds

/-- Strict ascending order on NCT ids: lexicographic on the characters. -/
def nctLt (a b : String) : Prop := charListLt a.data b.data = true

/-- Non-strict ascending order on NCT ids. -/
def nctLe (a b : String) : Prop := a = b ∨ nctLt a b

instance (a b : String) : Decidable (nctLt a b) :=
  inferInstanceAs (Decidable (_ = _))

instance (a b : String) : Decidable (nctLe a b) :=
  inferInstanceAs (Decidable (_ ∨ _))

/-- Ranking order of the Ranked step (§4.6): descending by combined score,
ties broken by ascending NCT id. -/
def rankOrder (a b : RankedTrial) : Prop :=
  b.match_score < a.match_score ∨
    (a.match_score = b.match_score ∧ nctLe a.trial.nct_id b.trial.nct_id)

instance : DecidableRel rankOrder := fun _ _ =>
  inferInstanceAs (Decidable (_ ∨ _))

/-- Strict companion of `rankOrder`: strictly larger score, or equal score
and strictly smaller NCT id.  On outputs with pairwise-distinct NCT ids the
ranking is strictly ordered by this relation, which is what makes the final
ordering independent of the order in which trials arrived. -/
def strictRank (a b : RankedTrial) : Prop :=
  b.match_score < a.match_score ∨
    (a.match_score = b.match_score ∧ nctLt a.trial.nct_id b.trial.nct_id)

/-- Modelled from the spec: the Filtered and Ranked steps of the engine
(§4.6) on the scored trials — trials with `hard_exclude = true` are removed
unconditionally, remaining trials with a combined score below the acceptance
threshold are removed, and the survivors are sorted descending by combined
score with the deterministic ascending-NCT-id tie-break. -/
def rankTrials (dist : ℚ × ℚ → ℚ × ℚ → ℚ) (p : PatientData) (jmap : JudgmentMap)
    (trials : List Trial) : List RankedTrial :=
  ((trials.map (scoreTrial dist p jmap)).filter fun rt =>
    !(judge p jmap rt.trial).hard_exclude &&
      decide (acceptanceThreshold ≤ rt.match_score)).insertionSort rankOrder

/-! ## Smart Router provider selection

Modelled from the spec (§4.2): `api/services/llm_router.py` is not in src.
The README documents the same rule twice with different length thresholds
(lines 266–270: 2000 words; the `SmartLLMRouter.select_provider` sketch at
lines 840–848: 1000); the model follows the spec's `word_count > 2000`. -/

/-- The two LLM backends the Smart Router chooses between: Claude is the
provider tuned for long context / complex reasoning, OpenAI the lower-latency
provider (README, Smart Routing Logic). -/
inductive LLMProvider where
  | claude
  | openai
deriving DecidableEq, Repr

/-- Complexity threshold of the routing heuristic (spec §4.2): `0.4`. -/
def complexityThreshold : ℚ := 2/5

/-- Word-count threshold of the routing heuristic (spec §4.2): `2000`. -/
def wordCountThreshold : ℕ := 2000

/-- Modelled from the spec: provider selection for extraction/eligibility
requests (§4.2) — if `word_count > 2000` OR `complexity_score > 0.4`, pick
the long-context provider, otherwise the lower-latency one. -/
def selectProvider (wordCount : ℕ) (complexityScore : ℚ) : LLMProvider :=
  if wordCountThreshold < wordCount ∨ complexityThreshold < complexityScore then
    .claude
  else
    .openai

/-! ## Query Synthesizer fallback

Modelled from the spec (§4.4) and `api/docs/RAG_ARCHITECTURE.md`:
`langchain_rag_service.py` / `rag_service.py` are not in src.  Validation
checks balanced parentheses and that every operator-shaped token is a known
operator keyword; on extraction or validation failure the synthesizer falls
back to a single concept-expansion term built from the diagnosis string. -/

/-- Balanced-parenthesis check with an explicit open-parenthesis counter. -/
def balancedFrom : List Char → ℕ → Bool
  | [], 0 => true
  | [], _ + 1 => false
  | c :: cs, d =>
      if c = '(' then balancedFrom cs (d + 1)
      else if c = ')' then
        match d with
        | 0 => false
        | d' + 1 => balancedFrom cs d'
      else balancedFrom cs d

/-- The boolean operator keywords of the registry search grammar
(`api/docs/clinical_trials/search_operators.md`). -/
def operatorKeywords : List String := ["AND", "OR", "NOT"]

/-- A token shaped like an operator keyword: nonempty and all uppercase.
Concept-expansion markers such as `EXPANSION[Concept]term` contain brackets
or lowercase characters and are not operator-shaped. -/
def operatorShaped (tok : String) : Bool :=
  !tok.isEmpty && tok.data.all Char.isUpper

/-- Space-separated tokens of a query string, with `cur` the (reversed)
characters of the token being read. -/
def tokensFrom : List Char → List Char → List String
  | [], cur => [⟨cur.reverse⟩]
  | c :: cs, cur =>
      if c = ' ' then ⟨cur.reverse⟩ :: tokensFrom cs []
      else tokensFrom cs (c :: cur)

/-- Space-separated tokens of a query string. -/
def tokenize (q : String) : List String := tokensFrom q.data []

/-- Modelled from the spec: grammar validation of a candidate search
expression (§4.4) — balanced parentheses, and every operator-shaped token is
a known operator keyword. -/
def validQuery (q : String) : Bool :=
  balancedFrom q.data 0 &&
    (tokenize q).all fun tok => !operatorShaped tok || operatorKeywords.contains tok

/-- Modelled from the spec: the deterministic fallback — a single
concept-expansion term built directly from the diagnosis string
(`EXPANSION[Concept]<diagnosis>`, §4.4 and `RAG_ARCHITECTURE.md` §Error
Handling). -/
def fallbackQuery (diagnosis : String) : String :=
  "EXPANSION[Concept]" ++ diagnosis

/-- Modelled from the spec: the Query Synthesizer's final selection (§4.4).
`llmCandidate = none` models extraction failure (no grammar-shaped substring
was found in the LLM output); a candidate that fails validation is
discarded. -/
def synthesizeQuery (llmCandidate : Option String) (diagnosis : String) : String :=
  match llmCandidate with
  | none => fallbackQuery diagnosis
  | some q => if validQuery q then q else fallbackQuery diagnosis

/-! ## Registry Client query construction

Modelled from the spec (§4.5): `api/services/trials_client.py` is not in
src.  The registry query carries the synthesized condition expression, the
three active statuses and an age window widened by a small buffer — and no
geographic filter, per the repository's own documented fix
(`src/unnamed/part_004`, "Geographic Filtering vs Ranking": remove
`filter.geo` from the API query and use location only as a ranking factor). -/

/-- Registry search parameters (spec §4.5).  There is deliberately no
geographic field. -/
structure SearchParams where
  condition_query : String
  statuses : List TrialStatus
  min_age : Option ℕ
  max_age : Option ℕ
deriving DecidableEq, Repr

/-- Small widening buffer around the patient's age (spec §4.5 fixes no
constant; the value is irrelevant to the properties proved below). -/
def ageBuffer : ℕ := 2

/-- Modelled from the spec: translation of the patient record plus the
synthesized query into registry query parameters (§4.5): condition
expression, the three active statuses, and the widened age window.  No
geographic filter is applied. -/
def buildSearchParams (query : String) (p : PatientData) : SearchParams :=
  { condition_query := query
    statuses := [.RECRUITING, .NOT_YET_RECRUITING, .ACTIVE_NOT_RECRUITING]
    min_age := p.age.map fun a => a - ageBuffer
    max_age := p.age.map fun a => a + ageBuffer }

/-! ## Extraction confidence aggregation

Modelled from the spec (§4.3): `patient_extractor.py` is not in src.  The
frontend `ConfidenceScores` interface (`src/unnamed/part_002`) declares the
per-field entries only optionally (and lists `gender` rather than
`cancer_stage`); the model follows the spec's field list and fixed weights:
diagnosis 0.30, age 0.15, stage 0.15, conditions 0.15, medications 0.15,
location 0.10, renormalized over the fields actually present. -/

/-- A successfully extracted field: its value together with the per-field
confidence reported by the LLM. -/
structure ExtractedField (α : Type) where
  value : α
  confidence : ℚ
deriving DecidableEq, Repr

/-- The LLM-derived fields of one extraction run, after type/enum
validation: invalid values were dropped, so a field is either absent or
carries a value and a confidence. -/
structure PatientExtraction where
  diagnosis : Option (ExtractedField String) := none
  age : Option (ExtractedField ℕ) := none
  stage : Option (ExtractedField String) := none
  conditions : Option (ExtractedField (List String)) := none
  medications : Option (ExtractedField (List String)) := none
  location : Option (ExtractedField LocationInfo) := none
deriving DecidableEq, Repr

/-- Modelled from the spec: per-field confidence entries of one extraction
(§3 `ConfidenceScores`): every LLM-derived field present in the record has a
confidence entry. -/
structure ConfidenceMap where
  overall : Option ℚ := none
  primary_diagnosis : Option ℚ := none
  age : Option ℚ := none
  cancer_stage : Option ℚ := none
  conditions : Option ℚ := none
  medications : Option ℚ := none
  location : Option ℚ := none
deriving DecidableEq, Repr

/-- Fixed aggregation weights of the extraction confidence (spec §4.3). -/
def confidenceWeights : PatientExtraction → List (ℚ × ℚ) := fun e =>
  (e.diagnosis.toList.map fun f => (3/10, f.confidence)) ++
  (e.age.toList.map fun f => (3/20, f.confidence)) ++
  (e.stage.toList.map fun f => (3/20, f.confidence)) ++
  (e.conditions.toList.map fun f => (3/20, f.confidence)) ++
  (e.medications.toList.map fun f => (3/20, f.confidence)) ++
  (e.location.toList.map fun f => (1/10, f.confidence))

/-- Weighted mean of a list of (weight, value) pairs, renormalized over the
weights present; `0` when nothing is present. -/
def weightedMean (l : List (ℚ × ℚ)) : ℚ :=
  if (l.map Prod.fst).sum = 0 then 0
  else (l.map fun p => p.1 * p.2).sum / (l.map Prod.fst).sum

/-- Modelled from the spec: the patient record assembled from the extracted
fields (fields that failed validation are "not extracted", §4.3). -/
def buildPatientRecord (e : PatientExtraction) : PatientData :=
  { primary_diagnosis := e.diagnosis.map (·.value)
    age := e.age.map (·.value)
    cancer_stage := e.stage.map (·.value)
    conditions := e.conditions.map (·.value)
    medications := e.medications.map (·.value)
    location := e.location.map (·.value) }

/-- Modelled from the spec: the confidence entries assembled from the same
extracted fields, with the aggregate `overall` the renormalized weighted
mean over the fields actually present (§4.3). -/
def buildConfidenceMap (e : PatientExtraction) : ConfidenceMap :=
  { overall := some (weightedMean (confidenceWeights e))
    primary_diagnosis := e.diagnosis.map (·.confidence)
    age := e.age.map (·.confidence)
    cancer_stage := e.stage.map (·.confidence)
    conditions := e.conditions.map (·.confidence)
    medications := e.medications.map (·.confidence)
    location := e.location.map (·.confidence) }

/-! ## Concrete sample inputs

Fixtures used to instantiate the theorems below on concrete data (spec §8
scenarios). -/

/-- Degenerate distance function for concrete runs of the engine. -/
def sampleDist : ℚ × ℚ → ℚ × ℚ → ℚ := fun _ _ => 0

/-- A patient record with no age and no location. -/
def emptyPatient : PatientData := {}

/-- The 17-year-old patient of the spec §8 hard-exclusion scenario. -/
def patient17 : PatientData := { age := some 17 }

/-- A trial whose eligibility requires `age_min = 18` (spec §8 scenario). -/
def trialAgeMin18 : Trial :=
  { nct_id := "NCT0018", eligibility := { age_min := some 18 } }

/-- A trial with no hard bounds that passes every filter. -/
def trialOpen : Trial := { nct_id := "NCT0100" }

/-- A judgment map rating every trial at `0.9`, no hard exclusion. -/
def sampleJmap : JudgmentMap :=
  fun _ => some { eligibility_score := 9/10, hard_exclude := false, reasoning := "fits" }

/-- The tie-break trials of spec §8: equal combined score `0.81`, NCT ids
`NCT001` and `NCT002`. -/
def tieTrial1 : Trial := { nct_id := "NCT001" }

/-- Second trial of the tie-break scenario. -/
def tieTrial2 : Trial := { nct_id := "NCT002" }

/-- A judgment map producing the combined score `0.81` for every trial of a
patient without coordinates: `33/35 × 0.7 + 0.5 × 0.3 = 0.81`. -/
def tieJmap : JudgmentMap :=
  fun _ => some { eligibility_score := 33/35, hard_exclude := false, reasoning := "" }

/-- An LLM query candidate with unbalanced parentheses. -/
def badCandidate : String := "((diabetes AND"

/-- A diagnosis string for the synthesizer fallback scenario. -/
def sampleDiagnosis : String := "huntington disease"

/-- A one-field extraction: diagnosis `breast cancer` with confidence 0.9. -/
def sampleExtraction : PatientExtraction :=
  { diagnosis := some { value := "breast cancer", confidence := 9/10 } }

/-- A chat state ready to send a question. -/
def sampleChatState : ChatState :=
  { messages := [], inputValue := "What are the side effects?", isLoading := false }

/-! ## Order lemmas for the tie-break relation -/

theorem charListLt_irrefl : ∀ l : List Char, charListLt l l = false
  | [] => rfl
  | c :: cs => by simp [charListLt, charListLt_irrefl cs]

theorem charListLt_cons {x y : Char} {xs ys : List Char} :
    charListLt (x :: xs) (y :: ys) = true ↔
      x < y ∨ (x = y ∧ charListLt xs ys = true) := by
  simp only [charListLt]
  rcases lt_trichotomy x y with h | h | h
  · simp [h]
  · subst h
    simp [lt_irrefl]
  · simp [lt_asymm h, h, ne_of_gt h]

theorem charListLt_trans : ∀ {a b c : List Char},
    charListLt a b = true → charListLt b c = true → charListLt a c = true
  | [], [], _, h1, _ => by simp [charListLt] at h1
  | [], _ :: _, [], _, h2 => by simp [charListLt] at h2
  | [], _ :: _, _ :: _, _, _ => rfl
  | _ :: _, [], _, h1, _ => by simp [charListLt] at h1
  | _ :: _, _ :: _, [], _, h2 => by simp [charListLt] at h2
  | x :: xs, y :: ys, z :: zs, h1, h2 => by
    rw [charListLt_cons] at h1 h2 ⊢
    rcases h1 with h1 | ⟨rfl, h1⟩
    · rcases h2 with h2 | ⟨rfl, h2⟩
      · exact Or.inl (lt_trans h1 h2)
      · exact Or.inl h1
    · rcases h2 with h2 | ⟨rfl, h2⟩
      · exact Or.inl h2
      · exact Or.inr ⟨rfl, charListLt_trans h1 h2⟩

theorem charListLt_connex : ∀ a b : List Char,
    a = b ∨ charListLt a b = true ∨ charListLt b a = true
  | [], [] => Or.inl rfl
  | [], _ :: _ => Or.inr (Or.inl rfl)
  | _ :: _, [] => Or.inr (Or.inr rfl)
  | c :: cs, d :: ds => by
    rcases lt_trichotomy c d with h | h | h
    · exact Or.inr (Or.inl (charListLt_cons.2 (Or.inl h)))
    · subst h
      rcases charListLt_connex cs ds with h' | h' | h'
      · exact Or.inl (by rw [h'])
      · exact Or.inr (Or.inl (charListLt_cons.2 (Or.inr ⟨rfl, h'⟩)))
      · exact Or.inr (Or.inr (charListLt_cons.2 (Or.inr ⟨rfl, h'⟩)))
    · exact Or.inr (Or.inr (charListLt_cons.2 (Or.inl h)))

theorem charListLt_asymm {a b : List Char} (h : charListLt a b = true) :
    charListLt b a = false := by
  cases hab : charListLt b a
  · rfl
  · have := charListLt_trans h hab
    rw [charListLt_irrefl] at this
    exact absurd this Bool.false_ne_true

theorem nctLe_total (a b : String) : nctLe a b ∨ nctLe b a := by
  rcases charListLt_connex a.data b.data with h | h | h
  · exact Or.inl (Or.inl (by cases a; cases b; exact congrArg String.mk (by simpa using h)))
  · exact Or.inl (Or.inr h)
  · exact Or.inr (Or.inr h)

theorem nctLe_trans {a b c : String} (h1 : nctLe a b) (h2 : nctLe b c) : nctLe a c := by
  rcases h1 with rfl | h1
  · exact h2
  · rcases h2 with rfl | h2
    · exact Or.inr h1
    · exact Or.inr (charListLt_trans h1 h2)

instance : IsTotal RankedTrial rankOrder where
  total a b := by
    rcases lt_trichotomy a.match_score b.match_score with h | h | h
    · exact Or.inr (Or.inl h)
    · rcases nctLe_total a.trial.nct_id b.trial.nct_id with h' | h'
      · exact Or.inl (Or.inr ⟨h, h'⟩)
      · exact Or.inr (Or.inr ⟨h.symm, h'⟩)
    · exact Or.inl (Or.inl h)

instance : IsTrans RankedTrial rankOrder where
  trans a b c hab hbc := by
    rcases hab with hab | ⟨hab, hab'⟩
    · rcases hbc with hbc | ⟨hbc, _⟩
      · exact Or.inl (hbc.trans hab)
      · exact Or.inl (hbc ▸ hab)
    · rcases hbc with hbc | ⟨hbc, hbc'⟩
      · exact Or.inl (by rw [hab]; exact hbc)
      · exact Or.inr ⟨hab.trans hbc, nctLe_trans hab' hbc'⟩

instance : IsAntisymm RankedTrial strictRank where
  antisymm a b h1 h2 := by
    exfalso
    rcases h1 with h1 | ⟨e1, l1⟩ <;> rcases h2 with h2 | ⟨e2, l2⟩
    · exact lt_asymm h1 h2
    · exact lt_irrefl _ (e2 ▸ h1)
    · exact lt_irrefl _ (e1 ▸ h2)
    · have := charListLt_asymm l1
      rw [l2] at this
      exact absurd this (by simp)

/-! ## Ranking pipeline lemmas -/

/-- Every member of the engine's output is the scored version of an input
trial that survived both filters. -/
theorem mem_rankTrials {dist : ℚ × ℚ → ℚ × ℚ → ℚ} {p : PatientData}
    {jmap : JudgmentMap} {ts : List Trial} {rt : RankedTrial}
    (h : rt ∈ rankTrials dist p jmap ts) :
    (∃ t ∈ ts, rt = scoreTrial dist p jmap t) ∧
      (judge p jmap rt.trial).hard_exclude = false ∧
      acceptanceThreshold ≤ rt.match_score := by
  unfold rankTrials at h
  have h1 := (List.perm_insertionSort rankOrder _).subset h
  obtain ⟨h2, h3⟩ := List.mem_filter.1 h1
  obtain ⟨t, ht, rfl⟩ := List.mem_map.1 h2
  simp only [Bool.and_eq_true, Bool.not_eq_true', decide_eq_true_eq] at h3
  exact ⟨⟨t, ht, rfl⟩, h3.1, h3.2⟩

/-- Scoring a trial leaves the trial entity untouched. -/
theorem scoreTrial_trial (dist : ℚ × ℚ → ℚ × ℚ → ℚ) (p : PatientData)
    (jmap : JudgmentMap) (t : Trial) : (scoreTrial dist p jmap t).trial = t := rfl

/-- A list sorted for `rankOrder` whose NCT ids are pairwise distinct is
sorted for the strict relation `strictRank`. -/
theorem sorted_strictRank {l : List RankedTrial} (hs : l.Sorted rankOrder)
    (hn : (l.map fun rt => rt.trial.nct_id).Nodup) : l.Sorted strictRank := by
  have hn' : l.Pairwise fun a b => a.trial.nct_id ≠ b.trial.nct_id :=
    List.pairwise_map.1 hn
  refine ((List.Pairwise.and hs hn').imp ?_)
  rintro a b ⟨hr, hne⟩
  rcases hr with h | ⟨he, heq | hlt⟩
  · exact Or.inl h
  · exact absurd heq hne
  · exact Or.inr ⟨he, hlt⟩

/-- The NCT ids of the engine's output are pairwise distinct whenever the
input ids are. -/
theorem rankTrials_ids_nodup {dist : ℚ × ℚ → ℚ × ℚ → ℚ} {p : PatientData}
    {jmap : JudgmentMap} {ts : List Trial} (h : (ts.map Trial.nct_id).Nodup) :
    ((rankTrials dist p jmap ts).map fun rt => rt.trial.nct_id).Nodup := by
  have hscored :
      ((ts.map (scoreTrial dist p jmap)).map fun rt => rt.trial.nct_id).Nodup := by
    rw [List.map_map]
    exact h
  have hfil :
      (((ts.map (scoreTrial dist p jmap)).filter fun rt =>
          !(judge p jmap rt.trial).hard_exclude &&
            decide (acceptanceThreshold ≤ rt.match_score)).map
        fun rt => rt.trial.nct_id).Nodup :=
    hscored.sublist ((List.filter_sublist _).map _)
  unfold rankTrials
  exact ((List.perm_insertionSort rankOrder _).map _).nodup_iff.2 hfil

/-- The engine's output is sorted: descending by combined score, ties broken
by ascending NCT id. -/
theorem rankTrials_sorted (dist : ℚ × ℚ → ℚ × ℚ → ℚ) (p : PatientData)
    (jmap : JudgmentMap) (ts : List Trial) :
    (rankTrials dist p jmap ts).Sorted rankOrder :=
  List.sorted_insertionSort rankOrder _

/-! ## Weighted-mean lemmas for confidence aggregation -/

/-- Every weight appearing in `confidenceWeights` is one of the fixed
positive constants. -/
theorem confidenceWeights_fst_pos (e : PatientExtraction) :
    ∀ pr ∈ confidenceWeights e, 0 < pr.1 := by
  intro pr hpr
  simp only [confidenceWeights, List.mem_append, List.mem_map,
    Option.mem_toList, Option.mem_def] at hpr
  rcases hpr with ((((⟨f, _, rfl⟩ | ⟨f, _, rfl⟩) | ⟨f, _, rfl⟩) | ⟨f, _, rfl⟩) |
    ⟨f, _, rfl⟩) | ⟨f, _, rfl⟩ <;> norm_num

/-- A weighted mean of values in `[0,1]` with positive weights lies in
`[0,1]`. -/
theorem weightedMean_bounds (l : List (ℚ × ℚ)) (hw : ∀ pr ∈ l, 0 < pr.1)
    (hc : ∀ pr ∈ l, 0 ≤ pr.2 ∧ pr.2 ≤ 1) :
    0 ≤ weightedMean l ∧ weightedMean l ≤ 1 := by
  unfold weightedMean
  split_ifs with h0
  · norm_num
  · have hWnn : 0 ≤ (l.map Prod.fst).sum := by
      apply List.sum_nonneg
      intro x hx
      obtain ⟨pr, hpr, rfl⟩ := List.mem_map.1 hx
      exact (hw pr hpr).le
    have hWpos : 0 < (l.map Prod.fst).sum := lt_of_le_of_ne hWnn (Ne.symm h0)
    have hnum : 0 ≤ (l.map fun pr => pr.1 * pr.2).sum := by
      apply List.sum_nonneg
      intro x hx
      obtain ⟨pr, hpr, rfl⟩ := List.mem_map.1 hx
      exact mul_nonneg (hw pr hpr).le (hc pr hpr).1
    have hle : (l.map fun pr => pr.1 * pr.2).sum ≤ (l.map Prod.fst).sum := by
      apply List.sum_le_sum
      intro pr hpr
      calc pr.1 * pr.2 ≤ pr.1 * 1 :=
            mul_le_mul_of_nonneg_left (hc pr hpr).2 (hw pr hpr).le
        _ = pr.1 := mul_one _
    exact ⟨div_nonneg hnum hWnn, (div_le_one hWpos).2 hle⟩

/-! ## Claim theorems -/

/-- C1: for every patient, judgment map and trial set, no ranked trial in the
engine's final output carries `hard_exclude = true`; and for a patient aged
17 against a trial with `age_min = 18`, the engine marks the trial
`hard_exclude = true` and the trial is absent from the final ranked
output. -/
theorem no_hard_exclude_spec :
    (∀ (dist : ℚ × ℚ → ℚ × ℚ → ℚ) (p : PatientData) (jmap : JudgmentMap)
        (ts : List Trial) (rt : RankedTrial), rt ∈ rankTrials dist p jmap ts →
        (judge p jmap rt.trial).hard_exclude = false) ∧
    (∀ (dist : ℚ × ℚ → ℚ × ℚ → ℚ) (p : PatientData) (jmap : JudgmentMap)
        (ts : List Trial) (t : Trial), p.age = some 17 →
        t.eligibility.age_min = some 18 →
        (judge p jmap t).hard_exclude = true ∧
        ∀ rt ∈ rankTrials dist p jmap ts, rt.trial ≠ t) := by
  have hmain : ∀ (dist : ℚ × ℚ → ℚ × ℚ → ℚ) (p : PatientData) (jmap : JudgmentMap)
      (ts : List Trial) (rt : RankedTrial), rt ∈ rankTrials dist p jmap ts →
      (judge p jmap rt.trial).hard_exclude = false :=
    fun _ _ _ _ _ h => (mem_rankTrials h).2.1
  refine ⟨hmain, ?_⟩
  intro dist p jmap ts t hage hmin
  have htrue : (judge p jmap t).hard_exclude = true := by
    have hex : ageExcluded p t = true := by
      unfold ageExcluded
      rw [hage, hmin]
      cases t.eligibility.age_max with
      | none => rfl
      | some m => rfl
    unfold judge
    simp [hex]
  refine ⟨htrue, ?_⟩
  intro rt hrt heq
  have h1 := hmain dist p jmap ts rt hrt
  rw [heq, htrue] at h1
  simp at h1

/-- Witness for C1: a concrete surviving trial has `hard_exclude = false`,
and the 17-year-old patient against the `age_min = 18` trial is
hard-excluded. -/
theorem no_hard_exclude_witness :
    (judge emptyPatient sampleJmap
        (scoreTrial sampleDist emptyPatient sampleJmap trialOpen).trial).hard_exclude = false ∧
    (judge patient17 sampleJmap trialAgeMin18).hard_exclude = true :=
  ⟨no_hard_exclude_spec.1 sampleDist emptyPatient sampleJmap [trialOpen] _
      (by with_unfolding_all decide),
   (no_hard_exclude_spec.2 sampleDist patient17 sampleJmap [trialAgeMin18]
      trialAgeMin18 rfl rfl).1⟩

/-- C2: every ranked trial's combined `match_score` equals its reported
`condition_match × 0.7 + geographic_proximity × 0.3`, so the combined score
is exactly reconstructible from the reported match factors. -/
theorem match_score_reconstructible_spec (dist : ℚ × ℚ → ℚ × ℚ → ℚ)
    (p : PatientData) (jmap : JudgmentMap) (ts : List Trial) (rt : RankedTrial)
    (h : rt ∈ rankTrials dist p jmap ts) :
    rt.match_score =
      rt.match_factors.condition_match * (7/10) +
        rt.match_factors.geographic_proximity * (3/10) := by
  obtain ⟨⟨t, _, rfl⟩, -, -⟩ := mem_rankTrials h
  rfl

/-- Witness for C2: the reconstruction identity on a concrete output
member. -/
theorem match_score_reconstructible_witness :
    (scoreTrial sampleDist emptyPatient sampleJmap trialOpen).match_score =
      (scoreTrial sampleDist emptyPatient sampleJmap
          trialOpen).match_factors.condition_match * (7/10) +
        (scoreTrial sampleDist emptyPatient sampleJmap
            trialOpen).match_factors.geographic_proximity * (3/10) :=
  match_score_reconstructible_spec sampleDist emptyPatient sampleJmap [trialOpen] _
    (by with_unfolding_all decide)

/-- C3: the Eligibility & Ranking Engine is deterministic — on the same
`(PatientRecord, judgment-map)` input, any two arrival orders of the same
trial set (with distinct NCT ids) produce the same output list; and on the
spec's tie-break scenario, two trials with identical combined score `0.81`
and NCT ids `NCT002` and `NCT001` rank with `NCT001` first. -/
theorem ranking_deterministic_spec :
    (∀ (dist : ℚ × ℚ → ℚ × ℚ → ℚ) (p : PatientData) (jmap : JudgmentMap)
        (ts₁ ts₂ : List Trial), ts₁.Perm ts₂ → (ts₁.map Trial.nct_id).Nodup →
        rankTrials dist p jmap ts₁ = rankTrials dist p jmap ts₂) ∧
    (rankTrials sampleDist emptyPatient tieJmap [tieTrial2, tieTrial1]).map
        (fun rt => rt.trial.nct_id) = ["NCT001", "NCT002"] ∧
    (rankTrials sampleDist emptyPatient tieJmap [tieTrial2, tieTrial1]).map
        (fun rt => rt.match_score) = [81/100, 81/100] := by
  refine ⟨?_, by with_unfolding_all decide, by with_unfolding_all decide⟩
  intro dist p jmap ts₁ ts₂ hperm hnodup
  have hnodup₂ : (ts₂.map Trial.nct_id).Nodup := ((hperm.map _).nodup_iff).1 hnodup
  have hperm' : List.Perm (rankTrials dist p jmap ts₁) (rankTrials dist p jmap ts₂) := by
    unfold rankTrials
    exact (List.perm_insertionSort rankOrder _).trans
      (((hperm.map _).filter _).trans (List.perm_insertionSort rankOrder _).symm)
  exact List.eq_of_perm_of_sorted (r := strictRank) hperm'
    (sorted_strictRank (rankTrials_sorted dist p jmap ts₁) (rankTrials_ids_nodup hnodup))
    (sorted_strictRank (rankTrials_sorted dist p jmap ts₂) (rankTrials_ids_nodup hnodup₂))

/-- Witness for C3: the two arrival orders of the tie-break trials yield the
same ranking. -/
theorem ranking_deterministic_witness :
    rankTrials sampleDist emptyPatient tieJmap [tieTrial2, tieTrial1] =
      rankTrials sampleDist emptyPatient tieJmap [tieTrial1, tieTrial2] :=
  ranking_deterministic_spec.1 sampleDist emptyPatient tieJmap _ _
    (List.Perm.swap tieTrial1 tieTrial2 []) (by decide)

/-- C4: the Smart Router selects the long-context provider exactly when
`word_count > 2000` or `complexity_score > 0.4`; a 2400-word transcript
routes to the long-context provider regardless of complexity, and a 40-word
transcript with below-threshold complexity routes to the low-latency
provider. -/
theorem selectProvider_spec :
    (∀ (w : ℕ) (c : ℚ), selectProvider w c = LLMProvider.claude ↔
        2000 < w ∨ (2 : ℚ)/5 < c) ∧
    (∀ c : ℚ, selectProvider 2400 c = LLMProvider.claude) ∧
    (∀ c : ℚ, c ≤ 2/5 → selectProvider 40 c = LLMProvider.openai) := by
  refine ⟨?_, ?_, ?_⟩
  · intro w c
    unfold selectProvider wordCountThreshold complexityThreshold
    split_ifs with h
    · simpa using h
    · simp [h]
  · intro c
    unfold selectProvider wordCountThreshold complexityThreshold
    rw [if_pos (Or.inl (by norm_num))]
  · intro c hc
    unfold selectProvider wordCountThreshold complexityThreshold
    rw [if_neg]
    rintro (h | h)
    · norm_num at h
    · exact absurd h (not_lt.2 hc)

/-- Witness for C4: a 40-word transcript with complexity `0.2` routes to the
low-latency provider. -/
theorem selectProvider_witness : selectProvider 40 (1/5) = LLMProvider.openai :=
  selectProvider_spec.2.2 (1/5) (by norm_num)

/-- C5: whenever the LLM query candidate fails grammar validation, the Query
Synthesizer discards it and returns the concept-expansion expression built
directly from the diagnosis; the returned expression always validates. -/
theorem synthesizeQuery_spec (llm diagnosis : String)
    (hfall : validQuery (fallbackQuery diagnosis) = true) :
    (validQuery llm = false →
      synthesizeQuery (some llm) diagnosis = fallbackQuery diagnosis) ∧
    synthesizeQuery none diagnosis = fallbackQuery diagnosis ∧
    validQuery (synthesizeQuery (some llm) diagnosis) = true := by
  unfold synthesizeQuery
  refine ⟨fun h => by simp [h], rfl, ?_⟩
  by_cases h : validQuery llm
  · simp [h]
  · simp only [Bool.not_eq_true] at h
    simp [h, hfall]

/-- Witness for C5: an unbalanced LLM candidate is discarded in favour of
the concept expansion of "huntington disease". -/
theorem synthesizeQuery_witness :
    synthesizeQuery (some badCandidate) sampleDiagnosis = fallbackQuery sampleDiagnosis :=
  (synthesizeQuery_spec badCandidate sampleDiagnosis (by decide)).1 (by decide)

/-- C6: geographic location is rank-only — the registry query parameters do
not depend on the patient's location (no hard geographic filter), and
missing coordinates on either side give the neutral geographic score
`0.5` instead of a failure. -/
theorem geographic_rank_only_spec :
    (∀ (q : String) (p : PatientData) (loc : Option LocationInfo),
        buildSearchParams q { p with location := loc } = buildSearchParams q p) ∧
    (∀ (dist : ℚ × ℚ → ℚ × ℚ → ℚ) (p : PatientData) (t : Trial),
        patientCoords p = none → geographicScore dist p t = 1/2) ∧
    (∀ (dist : ℚ × ℚ → ℚ × ℚ → ℚ) (p : PatientData) (t : Trial),
        siteCoords t = [] → geographicScore dist p t = 1/2) := by
  refine ⟨fun q p loc => rfl, ?_, ?_⟩
  · intro dist p t h
    unfold geographicScore
    rw [h]
  · intro dist p t h
    unfold geographicScore
    rw [h]
    cases patientCoords p <;> rfl

/-- Witness for C6: a patient without coordinates gets the neutral score. -/
theorem geographic_rank_only_witness :
    geographicScore sampleDist emptyPatient trialOpen = 1/2 :=
  geographic_rank_only_spec.2.1 sampleDist emptyPatient trialOpen rfl

/-- C7: on total Router failure, `extract` returns a partial record with an
explicit `success = false` flag and an error message, and the page handler
stores any parsed extraction result and moves to the review step exactly as
it does for a successful one. -/
theorem extraction_failure_review_spec (msg : String) (salvaged : Option PatientData)
    (st : HomeState) (t : String) (r r' : ExtractionResult) :
    (extractOnRouterFailure msg salvaged).success = false ∧
    (extractOnRouterFailure msg salvaged).error_message = some msg ∧
    (extractOnRouterFailure msg salvaged).patient_data = salvaged ∧
    (handleTranscriptSubmit st t (some r)).currentStep = UIStep.review ∧
    (handleTranscriptSubmit st t (some r)).extractedData = some r ∧
    (handleTranscriptSubmit st t (some r)).currentStep =
      (handleTranscriptSubmit st t (some r')).currentStep :=
  ⟨rfl, rfl, rfl, rfl, rfl, rfl⟩

/-- C8: every LLM-derived field present in the assembled patient record has
a per-field confidence entry; the aggregate `overall` is the weighted mean
of the present fields' confidences under the fixed renormalized weights, and
lies in `[0,1]` whenever the per-field confidences do. -/
theorem confidence_aggregation_spec (e : PatientExtraction)
    (hconf : ∀ pr ∈ confidenceWeights e, 0 ≤ pr.2 ∧ pr.2 ≤ 1) :
    ((buildPatientRecord e).primary_diagnosis.isSome ↔
        (buildConfidenceMap e).primary_diagnosis.isSome) ∧
    ((buildPatientRecord e).age.isSome ↔ (buildConfidenceMap e).age.isSome) ∧
    ((buildPatientRecord e).cancer_stage.isSome ↔
        (buildConfidenceMap e).cancer_stage.isSome) ∧
    ((buildPatientRecord e).conditions.isSome ↔
        (buildConfidenceMap e).conditions.isSome) ∧
    ((buildPatientRecord e).medications.isSome ↔
        (buildConfidenceMap e).medications.isSome) ∧
    ((buildPatientRecord e).location.isSome ↔ (buildConfidenceMap e).location.isSome) ∧
    (buildConfidenceMap e).overall = some (weightedMean (confidenceWeights e)) ∧
    0 ≤ weightedMean (confidenceWeights e) ∧ weightedMean (confidenceWeights e) ≤ 1 := by
  obtain ⟨h0, h1⟩ := weightedMean_bounds _ (confidenceWeights_fst_pos e) hconf
  refine ⟨?_, ?_, ?_, ?_, ?_, ?_, rfl, h0, h1⟩ <;>
    simp [buildPatientRecord, buildConfidenceMap]

/-- Witness for C8: the aggregate confidence of a concrete one-field
extraction is bounded by one. -/
theorem confidence_aggregation_witness :
    weightedMean (confidenceWeights sampleExtraction) ≤ 1 :=
  (confidence_aggregation_spec sampleExtraction
    (by with_unfolding_all decide)).2.2.2.2.2.2.2.2

/-- C9: `handleSendMessage` on a non-whitespace input while idle appends
exactly one user message (the untrimmed input) and one assistant message —
the backend answer on success, the fixed apology on either failure path —
and clears the input; on whitespace-only input or while a request is in
flight the state is untouched. -/
theorem handleSendMessage_spec (st : ChatState) (o : QAOutcome) :
    (jsTrim st.inputValue ≠ "" → st.isLoading = false →
      (handleSendMessage st o).messages =
          st.messages ++
            [{ mtype := .user, content := st.inputValue, sources := [] },
             { mtype := .assistant
               content :=
                 match o with
                 | .success answer _ => answer
                 | .apiFailure _ => apologyText
                 | .fetchError => apologyText
               sources :=
                 match o with
                 | .success _ sources => sources
                 | .apiFailure sources => sources
                 | .fetchError => [] }] ∧
        (handleSendMessage st o).inputValue = "" ∧
        (handleSendMessage st o).isLoading = false) ∧
    (jsTrim st.inputValue = "" ∨ st.isLoading = true → handleSendMessage st o = st) := by
  constructor
  · intro h1 h2
    have hcond : ¬(jsTrim st.inputValue = "" ∨ st.isLoading = true) := by
      rintro (h | h)
      · exact h1 h
      · rw [h2] at h
        exact Bool.false_ne_true h
    unfold handleSendMessage
    rw [if_neg hcond]
    cases o <;> exact ⟨rfl, rfl, rfl⟩
  · intro h
    unfold handleSendMessage
    rw [if_pos h]

/-- Witness for C9: sending a concrete question in an idle state appends the
user question and the backend answer. -/
theorem handleSendMessage_witness :
    (handleSendMessage sampleChatState (.success "About one year." ["protocol"])).messages =
      [{ mtype := .user, content := "What are the side effects?", sources := [] },
       { mtype := .assistant, content := "About one year.", sources := ["protocol"] }] := by
  have h := (handleSendMessage_spec sampleChatState
    (.success "About one year." ["protocol"])).1 (by decide) rfl
  simpa [sampleChatState] using h.1

/-- C10: toggling a trial's saved state is a self-inverse operation touching
only that trial: applying `handleSaveTrial` twice restores the set, one
application flips exactly the toggled id, and every other id's membership is
unchanged. -/
theorem handleSaveTrial_spec (trialId : String) (s : Finset String) :
    handleSaveTrial trialId (handleSaveTrial trialId s) = s ∧
    (trialId ∈ handleSaveTrial trialId s ↔ trialId ∉ s) ∧
    ∀ other : String, other ≠ trialId →
      (other ∈ handleSaveTrial trialId s ↔ other ∈ s) := by
  unfold handleSaveTrial
  by_cases h : trialId ∈ s
  · rw [if_pos h, if_neg (Finset.not_mem_erase _ _)]
    refine ⟨Finset.insert_erase h, ?_, ?_⟩
    · simp [Finset.not_mem_erase, h]
    · intro other hne
      simp [Finset.mem_erase, hne]
  · rw [if_neg h, if_pos (Finset.mem_insert_self _ _)]
    refine ⟨Finset.erase_insert h, ?_, ?_⟩
    · simp [Finset.mem_insert_self, h]
    · intro other hne
      simp [Finset.mem_insert, hne]

/-- Witness for C10: toggling `NCT123` leaves the saved state of `NCT999`
unchanged. -/
theorem handleSaveTrial_witness :
    "NCT999" ∈ handleSaveTrial "NCT123" {"NCT999"} ↔
      "NCT999" ∈ ({"NCT999"} : Finset String) :=
  (handleSaveTrial_spec "NCT123" {"NCT999"}).2.2 "NCT999" (by decide)

end ClinicalTrials
